import Mathlib

/-!
Verification of the face-fit command-line driver (`src/face-fit/main.cpp`)
of the FaceAR/face-analysis-sdk repository.

The program drives a black-box facial-landmark tracker over one of three
input shapes (single image, list of images, video stream) and routes each
frame's result to an on-screen display or a persisted landmark file.

The embedding below is a shallow one: each mode driver becomes a Lean
function producing a trace of observable events (tracker calls, resets,
file writes, displays) together with an optional abnormal outcome
(user-pressed-escape or a runtime error), mirroring the C++ exception
flow.  External collaborators that live outside `src/` (the tracker
engine, image decoding, list reading, `printf`-style formatting, key
input) are supplied as an explicit environment of scripted functions,
following the spec's description of their interfaces.
-/

namespace FaceFit

/-- Landmark point: a 2-D coordinate pair (the C++ `cv::Point_<double>`;
coordinates are modelled as rationals, their values never influence
control flow). -/
abbrev Pt := Rat × Rat

/-- OpenCV type code for a single-channel 8-bit image (`CV_8UC1`). -/
def CV_8UC1 : Nat := 0

/-- OpenCV type code for a 3-channel 8-bit image (`CV_8UC3`). -/
def CV_8UC3 : Nat := 16

/-- An image/frame: dimensions plus the OpenCV pixel-type code
(`cv::Mat::type()`).  Only the fields the driver inspects are kept. -/
structure Image where
  rows : Nat
  cols : Nat
  imgType : Nat
deriving DecidableEq, Repr

/-- Grayscale conversion of a 3-channel frame (`cv::cvtColor` with
`CV_BGR2GRAY`): same geometry, single-channel type. -/
def grayOf (img : Image) : Image :=
  { img with imgType := CV_8UC1 }

/-- Observable events emitted by a run, in program order. -/
inductive Event where
  /-- `LoadFaceTracker` / `LoadFaceTrackerParams` at the top of a mode driver. -/
  | loadTracker (modelPath paramsPath : String)
  /-- `read_list` on a pathname (lists mode). -/
  | readList (path : String)
  /-- `load_grayscale_image` succeeded on a pathname. -/
  | loadImage (path : String)
  /-- `cv::VideoCapture` opened on a pathname. -/
  | openVideo (path : String)
  /-- `tracker->NewFrame(gray_image, params)`: cold-start processing. -/
  | newFrame (frame : Image)
  /-- `tracker->Track(gray_image, params)`: continuation processing. -/
  | track (frame : Image)
  /-- `tracker->Reset()`. -/
  | reset
  /-- `IO::SavePts(path, shape)`: landmark file persisted. -/
  | savePts (path : String) (shape : List Pt)
  /-- `display_image_and_points`: frame shown with overlaid points. -/
  | display (image : Image) (points : List Pt)
  /-- `print_usage()`. -/
  | printUsage
deriving DecidableEq, Repr

/-- Abnormal outcomes that propagate to `main` as C++ exceptions do. -/
inductive RunErr where
  /-- The `user_pressed_escape` exception from the display loop. -/
  | escape
  /-- Any `std::runtime_error` (from `make_runtime_error` and collaborators). -/
  | runtimeError (msg : String)
deriving DecidableEq, Repr

/-- Result of a driver or of `run_program`: the events that happened before
completion or before the exception escaped, plus the optional exception. -/
abbrev RunResult := List Event × Option RunErr

/-- Sequencing: if the first computation raised, its events stand and the
continuation never runs; otherwise the continuation's events follow. -/
def seqRun (a : RunResult) (k : Unit → RunResult) : RunResult :=
  match a with
  | (evs, some e) => (evs, some e)
  | (evs, none) =>
    let r := k ()
    (evs ++ r.1, r.2)

/-- Configuration record (`struct Configuration` of `main.cpp`). -/
structure Configuration where
  wait_time : Rat
  model_pathname : String
  params_pathname : String
  tracking_threshold : Int
  window_title : String
  verbose : Bool
  circle_radius : Int
  circle_thickness : Int
  circle_linetype : Int
  circle_shift : Int
deriving DecidableEq, Repr

/-- Environment of external collaborators, scripted.  Modelled from the
spec: these live in `helpers.hpp`, `FaceTracker.hpp`, OpenCV and libc,
outside the repository slice under verification; the spec describes them
only at their interface boundary (list reader, image decoder returning a
grayscale buffer plus the original frame, video capture, the tracking
engine returning a scripted (confidence, shape) pair per call, and the
key code delivered by each `cv::waitKey`). -/
structure Env where
  readList : String → List String
  loadImg : String → Option (Image × Image)
  video : String → Option (List Image)
  script : Nat → Int × List Pt
  keys : Nat → Int

/-- Display loop `display_image_and_points`: shows the frame with the
points, then waits on a key; the escape key (code 27) raises
`user_pressed_escape`.  The key delivered is the environment's scripted
key at the current key index. -/
def display_image_and_points (cfg : Configuration) (image : Image)
    (points : List Pt) (key : Int) : RunResult :=
  ([Event.display image points], if key = 27 then some RunErr.escape else none)

/-- Display events, for counting key consumption (each
`display_image_and_points` call consumes exactly one `cv::waitKey` key). -/
def isDisplayEvent : Event → Bool
  | Event.display _ _ => true
  | _ => false

/-- Loop body of `run_lists_mode` (lines 214-244 of `main.cpp`): iterate the
image pathnames; per image: load it, `NewFrame` it, decide against the
threshold (`Reset` on reject), route to save/display, and advance the
landmark-pathname cursor when a landmark list was supplied. -/
def runListsLoop (cfg : Configuration) (env : Env) (hasLm : Bool) :
    List String → List String → Nat → Nat → RunResult
  | [], _, _, _ => ([], none)
  | p :: imgs, lms, si, ki =>
    match env.loadImg p with
    | none => ([], some (RunErr.runtimeError ("Unable to load image " ++ p)))
    | some (gray_image, image) =>
      let r := env.script si
      let result := r.1
      let shape : List Pt := if result ≥ cfg.tracking_threshold then r.2 else []
      let resetEvs : List Event :=
        if result ≥ cfg.tracking_threshold then [] else [Event.reset]
      let routed : RunResult :=
        if hasLm = false then
          display_image_and_points cfg image shape (env.keys ki)
        else if shape.length > 0 then
          seqRun ([Event.savePts (lms.headD "") shape], none) (fun _ =>
            if cfg.verbose then
              display_image_and_points cfg image shape (env.keys ki)
            else ([], none))
        else if cfg.verbose then
          display_image_and_points cfg image shape (env.keys ki)
        else ([], none)
      let kiNext := ki + routed.1.countP (fun e => isDisplayEvent e)
      seqRun ([Event.loadImage p, Event.newFrame gray_image], none) (fun _ =>
        seqRun (resetEvs, none) (fun _ =>
          seqRun routed (fun _ =>
            runListsLoop cfg env hasLm imgs (if hasLm then lms.tail else lms)
              (si + 1) kiNext)))

/-- Driver `run_lists_mode` (lines 192-250): load tracker and params, read
the image list, read and length-check the landmark list when supplied
(fatal mismatch before the loop), then run the loop. -/
def run_lists_mode (cfg : Configuration) (env : Env)
    (image_argument : String) (landmarks_argument : Option String) : RunResult :=
  seqRun ([Event.loadTracker cfg.model_pathname cfg.params_pathname,
           Event.readList image_argument], none) (fun _ =>
    let image_pathnames := env.readList image_argument
    match landmarks_argument with
    | some lmArg =>
      let landmark_pathnames := env.readList lmArg
      seqRun ([Event.readList lmArg], none) (fun _ =>
        if landmark_pathnames.length ≠ image_pathnames.length then
          ([], some (RunErr.runtimeError
            ("Number of pathnames in list " ++ image_argument ++
             " does not match the number in " ++ lmArg)))
        else
          runListsLoop cfg env true image_pathnames landmark_pathnames 0 0)
    | none => runListsLoop cfg env false image_pathnames [] 0 0)

/-- Size of `pathname_buffer` in `run_video_mode`
(`pathname_buffer.resize(1000)`, line 270): `snprintf` writes at most
999 characters plus a terminating NUL into it. -/
def pathname_buffer_size : Nat := 1000

/-- Little-endian decimal digits of `n`, peeling the low digit while the
fuel lasts (fuel `n` itself is always enough). -/
def digitsLoop : Nat → Nat → List Nat
  | 0, _ => []
  | fuel + 1, n => if n = 0 then [] else n % 10 :: digitsLoop fuel (n / 10)

/-- Little-endian decimal digits of `n`, with `0` rendered as the single
digit `0` (as `printf` does). -/
def decimalDigitsLE (n : Nat) : List Nat :=
  if n = 0 then [0] else digitsLoop n n

/-- Big-endian decimal digits of `n`. -/
def decimalDigits (n : Nat) : List Nat := (decimalDigitsLE n).reverse

/-- Character for a single decimal digit. -/
def digitChar (d : Nat) : Char := Char.ofNat (48 + d)

/-- Numeric value of a decimal-digit character. -/
def charDigit (c : Char) : Nat := c.toNat - 48

/-- Decimal rendering of `n` zero-padded on the left to width `w`
(`printf` conversion `%0wu`; plain `%u` is width 0). -/
def padNum (w n : Nat) : List Char :=
  List.replicate (w - (decimalDigits n).length) '0'
    ++ (decimalDigits n).map digitChar

/-- Reading a zero-padded decimal rendering back into the number it
renders (verification-side inverse of `padNum`). -/
def unpad (cs : List Char) : Nat :=
  Nat.ofDigits 10 (cs.reverse.map charDigit)

/-- Modelled from the spec: the video-mode landmarks argument is a
`sprintf` format template accepting at most one unsigned-integer value;
it splits into the text before the slot, the zero-pad width of the slot,
and the text after the slot.  (`printf` itself is a libc collaborator
outside the repository slice.) -/
structure FormatTemplate where
  pre : String
  padWidth : Nat
  post : String
deriving DecidableEq, Repr

/-- Characters `snprintf` produces for the template at frame `n`, before
buffer truncation. -/
def sprintfFrame (t : FormatTemplate) (n : Nat) : List Char :=
  t.pre.data ++ padNum t.padWidth n ++ t.post.data

/-- Resolved per-frame destination pathname (line 301 of `main.cpp`):
`snprintf(pathname_buffer.data(), pathname_buffer.size(), template,
frame_number)` keeps at most `pathname_buffer_size - 1` characters. -/
def resolve_pathname (t : FormatTemplate) (n : Nat) : String :=
  String.mk ((sprintfFrame t n).take (pathname_buffer_size - 1))

/-- Loop body of `run_video_mode` (lines 272-311): pull frames while they
are non-empty; convert 3-channel frames to grayscale, pass single-channel
frames through, and fail on any other pixel layout; `Track` the gray
frame (continuation tracking), decide against the threshold (`Reset` on
reject), and route to save (pathname resolved from the template with the
1-based frame counter) or display of the original frame. -/
def runVideoLoop (cfg : Configuration) (env : Env)
    (lmTemplate : Option FormatTemplate) :
    List Image → Nat → Nat → Nat → RunResult
  | [], _, _, _ => ([], none)
  | image :: rest, frame_number, si, ki =>
    if image.rows > 0 ∧ image.cols > 0 then
      let grayRes : Except RunErr Image :=
        if image.imgType = CV_8UC3 then Except.ok (grayOf image)
        else if image.imgType = CV_8UC1 then Except.ok image
        else Except.error (RunErr.runtimeError
          "Do not know how to convert video frame to a grayscale image.")
      match grayRes with
      | Except.error e => ([], some e)
      | Except.ok gray_image =>
        let r := env.script si
        let result := r.1
        let shape : List Pt :=
          if result ≥ cfg.tracking_threshold then r.2 else []
        let resetEvs : List Event :=
          if result ≥ cfg.tracking_threshold then [] else [Event.reset]
        let routed : RunResult :=
          match lmTemplate with
          | none => display_image_and_points cfg image shape (env.keys ki)
          | some t =>
            if shape.length > 0 then
              seqRun ([Event.savePts (resolve_pathname t frame_number) shape],
                  none) (fun _ =>
                if cfg.verbose then
                  display_image_and_points cfg image shape (env.keys ki)
                else ([], none))
            else if cfg.verbose then
              display_image_and_points cfg image shape (env.keys ki)
            else ([], none)
        let kiNext := ki + routed.1.countP (fun e => isDisplayEvent e)
        seqRun ([Event.track gray_image], none) (fun _ =>
          seqRun (resetEvs, none) (fun _ =>
            seqRun routed (fun _ =>
              runVideoLoop cfg env lmTemplate rest (frame_number + 1)
                (si + 1) kiNext)))
    else ([], none)

/-- Driver `run_video_mode` (lines 252-317): load tracker and params, open
the video (fatal when it cannot be opened), then run the frame loop
starting at frame number 1. -/
def run_video_mode (cfg : Configuration) (env : Env)
    (image_argument : String) (lmTemplate : Option FormatTemplate) : RunResult :=
  seqRun ([Event.loadTracker cfg.model_pathname cfg.params_pathname], none)
    (fun _ =>
    match env.video image_argument with
    | none => ([], some (RunErr.runtimeError
        ("Unable to open video file " ++ image_argument)))
    | some frames =>
      seqRun ([Event.openVideo image_argument], none) (fun _ =>
        runVideoLoop cfg env lmTemplate frames 1 0 0))

/-- Driver `run_image_mode` (lines 319-347): load tracker and params, load
the single image, `NewFrame` it, decide against the threshold (note: no
`Reset` call on reject in this driver), then either display (no landmarks
argument) or save when the shape is non-empty (nothing otherwise, and no
display even when verbose). -/
def run_image_mode (cfg : Configuration) (env : Env)
    (image_argument : String) (landmarks_argument : Option String) : RunResult :=
  seqRun ([Event.loadTracker cfg.model_pathname cfg.params_pathname], none)
    (fun _ =>
    match env.loadImg image_argument with
    | none => ([], some (RunErr.runtimeError
        ("Unable to load image " ++ image_argument)))
    | some (gray_image, image) =>
      let r := env.script 0
      let result := r.1
      let shape : List Pt := if result ≥ cfg.tracking_threshold then r.2 else []
      seqRun ([Event.loadImage image_argument, Event.newFrame gray_image], none)
        (fun _ =>
        if landmarks_argument.isNone then
          display_image_and_points cfg image shape (env.keys 0)
        else if shape.length > 0 then
          ([Event.savePts (landmarks_argument.getD "") shape], none)
        else ([], none)))

/-- Accumulating decimal-digit reader: succeeds only when every remaining
character is a digit. -/
def parseNatLoop (acc : Nat) : List Char → Option Nat
  | [] => some acc
  | c :: cs =>
    if c.isDigit then parseNatLoop (acc * 10 + (c.toNat - 48)) cs else none

/-- Modelled from the spec: extraction of an unsigned decimal number from
a token (at least one digit, all characters digits). -/
def parseNatToken (s : String) : Option Nat :=
  match s.data with
  | [] => none
  | cs => parseNatLoop 0 cs

/-- Modelled from the spec: stream extraction of the `--threshold <int>`
value (`get_argument<int>` lives in `command-line-arguments.hpp`, outside
the repository slice); accepts an optional sign followed by decimal
digits, with no range check of any kind. -/
def parseIntToken (s : String) : Option Int :=
  match s.data with
  | '-' :: cs =>
    match cs with
    | [] => none
    | _ => (parseNatLoop 0 cs).map (fun n => -(n : Int))
  | '+' :: cs =>
    match cs with
    | [] => none
    | _ => (parseNatLoop 0 cs).map (fun n => (n : Int))
  | _ => (parseNatToken s).map (fun n => (n : Int))

/-- Modelled from the spec: stream extraction of the `--wait-time
<seconds:float>` value (`get_argument<double>` lives in
`command-line-arguments.hpp`, outside the repository slice); accepts an
optional leading minus sign, an integer part and an optional fractional
part. -/
def parseDecimal (s : String) : Option Rat :=
  let core (t : String) : Option Rat :=
    match t.split (fun c => c = '.') with
    | [a] => (parseNatToken a).map (fun n => (n : Rat))
    | [a, b] =>
      match parseNatToken a, parseNatToken b with
      | some na, some nb =>
        some ((na : Rat) + (nb : Rat) / (10 : Rat) ^ b.length)
      | _, _ => none
    | _ => none
  if s.startsWith "-" then (core (s.drop 1)).map Neg.neg else core s

/-- Mutable state of the argument loop in `run_program` (lines 105-122):
the configuration being built, the two mode switches, whether a wait time
was given, and the two positional arguments. -/
structure ParsedArgs where
  cfg : Configuration
  listsMode : Bool
  videoMode : Bool
  waitTimeSpecified : Bool
  imageArg : Option String
  landmarksArg : Option String
deriving DecidableEq, Repr

/-- Initial state of the argument loop: the defaults of lines 108-122.
The model and params pathnames default to the installed tracker files
(`DefaultFaceTrackerModelPathname()` / `DefaultFaceTrackerParamsPathname()`,
external helpers; their concrete values never influence control flow). -/
def initialParsedArgs : ParsedArgs where
  cfg :=
    { wait_time := 0
      model_pathname := "face.mytracker"
      params_pathname := "face.mytrackerparams"
      tracking_threshold := 5
      window_title := "CSIRO Face Fit"
      verbose := false
      circle_radius := 2
      circle_thickness := 1
      circle_linetype := 8
      circle_shift := 0 }
  listsMode := false
  videoMode := false
  waitTimeSpecified := false
  imageArg := none
  landmarksArg := none

/-- Outcome of the argument loop: `--help` short-circuits with the usage
text, a bad argument raises, otherwise the final state is returned. -/
inductive ParseStep where
  | help
  | fail (msg : String)
  | done (st : ParsedArgs)
deriving DecidableEq, Repr

/-- Argument loop of `run_program` (lines 124-150).  Value-taking options
consume the following token (`get_argument`; modelled from the spec:
`get_argument` and `assign_argument` live in
`command-line-arguments.hpp`, outside the repository slice — a missing
or unparseable value is a fatal usage error, and a positional token
fills the image argument first, then the landmarks argument, and is
otherwise unprocessable).  Note `--threshold` parses any integer with no
range check. -/
def parseArgs : List String → ParsedArgs → ParseStep
  | [], st => ParseStep.done st
  | argument :: rest, st =>
    if argument = "--help" ∨ argument = "-h" then ParseStep.help
    else if argument = "--lists" then
      parseArgs rest { st with listsMode := true }
    else if argument = "--video" then
      parseArgs rest { st with videoMode := true }
    else if argument = "--wait-time" then
      match rest with
      | [] => ParseStep.fail "missing value for --wait-time"
      | v :: rest2 =>
        match parseDecimal v with
        | none => ParseStep.fail "bad value for --wait-time"
        | some d =>
          parseArgs rest2 { st with waitTimeSpecified := true,
                                    cfg := { st.cfg with wait_time := d } }
    else if argument = "--model" then
      match rest with
      | [] => ParseStep.fail "missing value for --model"
      | v :: rest2 =>
        parseArgs rest2 { st with cfg := { st.cfg with model_pathname := v } }
    else if argument = "--params" then
      match rest with
      | [] => ParseStep.fail "missing value for --params"
      | v :: rest2 =>
        parseArgs rest2 { st with cfg := { st.cfg with params_pathname := v } }
    else if argument = "--title" then
      match rest with
      | [] => ParseStep.fail "missing value for --title"
      | v :: rest2 =>
        parseArgs rest2 { st with cfg := { st.cfg with window_title := v } }
    else if argument = "--threshold" then
      match rest with
      | [] => ParseStep.fail "missing value for --threshold"
      | v :: rest2 =>
        match parseIntToken v with
        | none => ParseStep.fail "bad value for --threshold"
        | some t =>
          parseArgs rest2 { st with cfg := { st.cfg with tracking_threshold := t } }
    else if argument = "--verbose" then
      parseArgs rest { st with cfg := { st.cfg with verbose := true } }
    else
      match st.imageArg with
      | none => parseArgs rest { st with imageArg := some argument }
      | some _ =>
        match st.landmarksArg with
        | none => parseArgs rest { st with landmarksArg := some argument }
        | some _ =>
          ParseStep.fail ("Unable to process argument " ++ argument)

/-- Modelled from the spec: how the video driver interprets the landmarks
argument as a `sprintf` template with a single unsigned-integer slot
(libc format-string parsing is outside the repository slice). -/
structure TemplateParser where
  parseTemplate : String → FormatTemplate

/-- Function `run_program` (lines 102-175): parse the arguments, print
usage and succeed when no positional input was given, reject the
`--lists`/`--video` conflict, then dispatch to the mode driver with the
mode's default wait time when none was specified. -/
def run_program (env : Env) (tp : TemplateParser) (args : List String) :
    RunResult :=
  match parseArgs args initialParsedArgs with
  | ParseStep.help => ([Event.printUsage], none)
  | ParseStep.fail msg => ([], some (RunErr.runtimeError msg))
  | ParseStep.done st =>
    match st.imageArg with
    | none => ([Event.printUsage], none)
    | some image_argument =>
      if st.listsMode ∧ st.videoMode then
        ([], some (RunErr.runtimeError
          "The operator is confused as the switches --lists and --video are present on the command line."))
      else if st.listsMode then
        let cfg := if st.waitTimeSpecified then st.cfg
                   else { st.cfg with wait_time := 1 / 30 }
        run_lists_mode cfg env image_argument st.landmarksArg
      else if st.videoMode then
        let cfg := if st.waitTimeSpecified then st.cfg
                   else { st.cfg with wait_time := 1 / 30 }
        run_video_mode cfg env image_argument
          (st.landmarksArg.map tp.parseTemplate)
      else
        let cfg := if st.waitTimeSpecified then st.cfg
                   else { st.cfg with wait_time := 0 }
        run_image_mode cfg env image_argument st.landmarksArg

/-- Mapping of `main`'s exception handling (lines 177-189) to the process
exit code: normal completion is 0, `user_pressed_escape` is 1, any other
exception is 2. -/
def exitCode : Option RunErr → Nat
  | none => 0
  | some RunErr.escape => 1
  | some (RunErr.runtimeError _) => 2

/-- Message `main` writes to the error stream (`std::cerr`), line 186:
only the unhandled-exception branch writes there (`user_pressed_escape`
prints to standard output instead). -/
def mainStderr : Option RunErr → Option String
  | some (RunErr.runtimeError msg) =>
    some ("Caught unhandled exception: " ++ msg)
  | _ => none

/-- Whole-process model: the trace of `run_program` and the exit code. -/
def mainRun (env : Env) (tp : TemplateParser) (args : List String) :
    List Event × Nat :=
  let r := run_program env tp args
  (r.1, exitCode r.2)

/-! ### Trace observables -/

/-- Save events. -/
def isSaveEvent : Event → Bool
  | Event.savePts _ _ => true
  | _ => false

/-- Reset events. -/
def isResetEvent : Event → Bool
  | Event.reset => true
  | _ => false

/-- Tracker process calls (cold start or continuation). -/
def isProcessEvent : Event → Bool
  | Event.newFrame _ => true
  | Event.track _ => true
  | _ => false

/-- Point lists shown by the display calls of a trace, in order. -/
def displayedPoints (tr : List Event) : List (List Pt) :=
  tr.filterMap (fun e => match e with
    | Event.display _ pts => some pts
    | _ => none)

/-- Pathname/shape pairs persisted by the save calls of a trace, in order. -/
def savesOf (tr : List Event) : List (String × List Pt) :=
  tr.filterMap (fun e => match e with
    | Event.savePts p s => some (p, s)
    | _ => none)

/-- Pathnames persisted by the save calls of a trace, in order. -/
def savePathsOf (tr : List Event) : List String :=
  tr.filterMap (fun e => match e with
    | Event.savePts p _ => some p
    | _ => none)

/-- Image-load events. -/
def isLoadImageEvent : Event → Bool
  | Event.loadImage _ => true
  | _ => false

/-- Tracker operations of a trace (process calls and resets), in order. -/
def trackerOps (tr : List Event) : List Event :=
  tr.filter (fun e => isProcessEvent e || isResetEvent e)

/-- Per-run action set: did anything persist, did anything display. -/
def actionsOf (r : RunResult) : Bool × Bool :=
  (r.1.any (fun e => isSaveEvent e), r.1.any (fun e => isDisplayEvent e))

/-! ### Verification fixtures: concrete frames, configurations and scripted
environments used to instantiate the drivers in the theorems below. -/

/-- A 4x4 single-channel frame. -/
def grayFrame : Image := { rows := 4, cols := 4, imgType := CV_8UC1 }

/-- A 4x4 3-channel frame; its grayscale conversion is `grayFrame`. -/
def colorFrame : Image := { rows := 4, cols := 4, imgType := CV_8UC3 }

/-- The default configuration with the tracking threshold set to `t`. -/
def baseCfg (t : Int) : Configuration :=
  { initialParsedArgs.cfg with tracking_threshold := t }

/-- The default configuration with threshold `t` and verbosity `vb`. -/
def verboseCfg (t : Int) (vb : Bool) : Configuration :=
  { baseCfg t with verbose := vb }

/-- Environment whose tracker always returns confidence `c` with shape `s`,
whose image decoding always succeeds (grayscale `grayFrame`, original
`colorFrame`), whose lists have a single entry, whose video has a single
3-channel frame, and whose keys are never the escape key. -/
def oneShotEnv (c : Int) (s : List Pt) : Env where
  readList := fun _ => ["a.png"]
  loadImg := fun _ => some (grayFrame, colorFrame)
  video := fun _ => some [colorFrame]
  script := fun _ => (c, s)
  keys := fun _ => 0

/-- A template parser fixture (the template's content is irrelevant to the
run-level theorems that use it). -/
def defaultTemplateParser : TemplateParser where
  parseTemplate := fun _ => { pre := "frame_", padWidth := 4, post := ".pts" }

/-- A concrete format template fixture. -/
def sampleTemplate : FormatTemplate where
  pre := "frame_"
  padWidth := 4
  post := ".pts"

/-- A format template whose text before the substitution slot already
fills the whole 999-character capacity of `pathname_buffer`. -/
def longTemplate : FormatTemplate where
  pre := String.mk (List.replicate 999 'a')
  padWidth := 0
  post := ""

/-- Output-router table exactly as the spec (§4.4) states it: given
(output destination present, shape non-empty, verbose), the
(persist, display) action pair. -/
def specRouter : Bool → Bool → Bool → Bool × Bool
  | false, _, _ => (false, true)
  | true, true, false => (true, false)
  | true, true, true => (true, true)
  | true, false, true => (false, true)
  | true, false, false => (false, false)

/-- Output router the image-mode driver actually implements (lines
337-341 of `main.cpp`): without an output destination it displays; with
one it persists exactly when the shape is non-empty and never displays,
verbose or not. -/
def imageRouter : Bool → Bool → Bool → Bool × Bool
  | false, _, _ => (false, true)
  | true, nonEmpty, _ => (nonEmpty, false)

/-- A zero-size frame: the video stream's end-of-stream signal. -/
def emptyFrame : Image := { rows := 0, cols := 0, imgType := CV_8UC1 }

/-- A frame whose pixel layout (OpenCV type code 2, a 16-bit
single-channel image) is neither 8-bit single-channel nor 8-bit
3-channel. -/
def badFrame : Image := { rows := 4, cols := 4, imgType := 2 }

/-- Environment for list-mode runs: `images.txt` names the image list,
any other pathname names the landmark list; decoding always succeeds and
keys never press escape. -/
def listsEnv (imgs lms : List String) (script : Nat → Int × List Pt) : Env where
  readList := fun p => if p = "images.txt" then imgs else lms
  loadImg := fun _ => some (grayFrame, colorFrame)
  video := fun _ => none
  script := script
  keys := fun _ => 0

/-- Environment for video-mode runs over a given frame stream; keys never
press escape. -/
def videoEnv (frames : List Image) (script : Nat → Int × List Pt) : Env where
  readList := fun _ => []
  loadImg := fun _ => none
  video := fun _ => some frames
  script := script
  keys := fun _ => 0

/-- Expected persistence pattern of a list-mode run with an output list:
per frame, in input order, the landmark-pathname cursor is at the head of
the remaining output list and advances by exactly one — whether or not
the frame persisted anything — so frame `i` can only ever save to output
pathname `i`. -/
def expectedSaves (t : Int) (script : Nat → Int × List Pt) :
    Nat → List String → Nat → List (String × List Pt)
  | 0, _, _ => []
  | n + 1, lms, si =>
    (let r := script si
     let shape : List Pt := if r.1 ≥ t then r.2 else []
     if shape.length > 0 then [(lms.headD "", shape)] else [])
      ++ expectedSaves t script n lms.tail (si + 1)

/-- Expected tracker-operation pattern of a loop of `n` frames starting at
script position `si`: one process call per frame (continuation `Track` in
video mode, cold-start `NewFrame` otherwise), immediately followed by a
`Reset` exactly when that frame's confidence falls below the threshold —
so rejected state never reaches the next process call. -/
def expectedTrackerOps (t : Int) (script : Nat → Int × List Pt)
    (isVideo : Bool) : Nat → Nat → List Event
  | 0, _ => []
  | n + 1, si =>
    ((if isVideo then Event.track grayFrame else Event.newFrame grayFrame)
        :: (if (script si).1 ≥ t then [] else [Event.reset]))
      ++ expectedTrackerOps t script isVideo n (si + 1)

/-- C1: in all three modes the per-frame decision accepts — the tracker's
shape is the one used — exactly when the confidence is at least the
threshold, and a confidence exactly equal to the threshold is an accept.
Observed through the displayed point list of a one-frame run of each
driver with no output destination: the shape shown is the tracker's shape
when `c ≥ t` and the empty shape otherwise. -/
theorem decision_accepts_iff_confidence_ge_threshold
    (c t : Int) (s : List Pt) :
    (displayedPoints (run_image_mode (baseCfg t) (oneShotEnv c s) "img.png" none).1
       = [if c ≥ t then s else []])
    ∧ (displayedPoints (run_lists_mode (baseCfg t) (oneShotEnv c s) "images.txt" none).1
       = [if c ≥ t then s else []])
    ∧ (displayedPoints (run_video_mode (baseCfg t) (oneShotEnv c s) "video.avi" none).1
       = [if c ≥ t then s else []])
    ∧ (displayedPoints (run_image_mode (baseCfg t) (oneShotEnv t s) "img.png" none).1
       = [s]) := by
  by_cases h : c ≥ t <;>
    simp [run_image_mode, run_lists_mode, runListsLoop, run_video_mode,
      runVideoLoop, seqRun, display_image_and_points, displayedPoints,
      oneShotEnv, baseCfg, initialParsedArgs, grayFrame, colorFrame, grayOf,
      CV_8UC1, CV_8UC3, h]

/-- Tracker-operation pattern of the list-mode loop without an output
destination: cold-start process per image, reset exactly on rejections. -/
lemma trackerOps_runListsLoop (t : Int) (script : Nat → Int × List Pt)
    (imgs0 lms0 : List String) :
    ∀ (imgs : List String) (si ki : Nat),
      trackerOps (runListsLoop (baseCfg t) (listsEnv imgs0 lms0 script) false
          imgs [] si ki).1
        = expectedTrackerOps t script false imgs.length si := by
  intro imgs
  induction imgs with
  | nil => intro si ki; simp [runListsLoop, trackerOps, expectedTrackerOps]
  | cons p rest ih =>
    intro si ki
    by_cases h : (script si).1 ≥ t <;>
      (simp [runListsLoop, listsEnv, seqRun, display_image_and_points,
        trackerOps, expectedTrackerOps, isProcessEvent, isResetEvent,
        isDisplayEvent, baseCfg, initialParsedArgs, h]; exact ih _ _)

/-- Tracker-operation pattern and clean completion of the video-mode loop
over a stream of `n` well-formed 3-channel frames, without an output
destination: continuation process per frame, reset exactly on
rejections. -/
lemma trackerOps_runVideoLoop (t : Int) (script : Nat → Int × List Pt)
    (frames0 : List Image) :
    ∀ (n fn si ki : Nat),
      trackerOps (runVideoLoop (baseCfg t) (videoEnv frames0 script) none
          (List.replicate n colorFrame) fn si ki).1
        = expectedTrackerOps t script true n si
      ∧ (runVideoLoop (baseCfg t) (videoEnv frames0 script) none
          (List.replicate n colorFrame) fn si ki).2 = none := by
  intro n
  induction n with
  | zero => intro fn si ki; simp [runVideoLoop, trackerOps, expectedTrackerOps]
  | succ m ih =>
    intro fn si ki
    by_cases h : (script si).1 ≥ t <;>
      (simp [List.replicate_succ, runVideoLoop, videoEnv, seqRun,
        display_image_and_points, trackerOps, expectedTrackerOps,
        isProcessEvent, isResetEvent, isDisplayEvent, baseCfg,
        initialParsedArgs, colorFrame, grayFrame, grayOf, CV_8UC1, CV_8UC3,
        h]; exact ih _ _ _)

/-- C2 counterexample: in image mode a rejected frame (confidence 4,
threshold 5) discards the shape but performs no tracker reset — the
trace contains no reset event — refuting the claim that in every mode a
rejected frame resets the tracker that frame. -/
theorem image_mode_reject_performs_no_reset :
    ¬ ((4 : Int) ≥ 5)
    ∧ (run_image_mode (baseCfg 5) (oneShotEnv 4 [((1 : Rat), (2 : Rat))])
        "img.png" none).1.countP (fun e => isResetEvent e) = 0
    ∧ displayedPoints (run_image_mode (baseCfg 5)
        (oneShotEnv 4 [((1 : Rat), (2 : Rat))]) "img.png" none).1 = [[]] := by
  refine ⟨by decide, ?_, ?_⟩ <;> decide

/-- C2 (amended): whenever a frame's confidence is below the threshold the
shape is discarded (left empty); in list and video modes the tracker is
reset that frame, immediately after the rejected process call and before
any subsequent process call; in image mode — where the single process
call has no successor — no reset is performed but the shape is still
discarded. -/
theorem reject_discards_shape_and_resets_in_loop_modes
    (t : Int) (script : Nat → Int × List Pt) (imgs lms : List String)
    (n : Nat) (c : Int) (s : List Pt) (hreject : c < t) :
    (trackerOps (run_lists_mode (baseCfg t) (listsEnv imgs lms script)
        "images.txt" none).1
      = expectedTrackerOps t script false imgs.length 0)
    ∧ (trackerOps (run_video_mode (baseCfg t)
        (videoEnv (List.replicate n colorFrame) script) "video.avi" none).1
      = expectedTrackerOps t script true n 0)
    ∧ (run_image_mode (baseCfg t) (oneShotEnv c s) "img.png"
        none).1.countP (fun e => isResetEvent e) = 0
    ∧ displayedPoints (run_image_mode (baseCfg t) (oneShotEnv c s)
        "img.png" none).1 = [[]] := by
  have hc : ¬ (c ≥ t) := not_le.mpr hreject
  refine ⟨?_, ?_, ?_, ?_⟩
  · have h := trackerOps_runListsLoop t script imgs lms imgs 0 0
    simpa [run_lists_mode, listsEnv, seqRun, trackerOps, isProcessEvent,
      isResetEvent] using h
  · have h := (trackerOps_runVideoLoop t script (List.replicate n colorFrame)
      n 1 0 0).1
    simpa [run_video_mode, videoEnv, seqRun, trackerOps, isProcessEvent,
      isResetEvent] using h
  · by_cases h : c ≥ t <;>
      simp [run_image_mode, oneShotEnv, seqRun, display_image_and_points,
        baseCfg, initialParsedArgs, isResetEvent, h]
  · simp [run_image_mode, oneShotEnv, seqRun, display_image_and_points,
      displayedPoints, baseCfg, initialParsedArgs, hc]

/-- Witness: the rejection hypothesis holds at confidence 2, threshold 5,
and the image-mode run there displays the discarded (empty) shape. -/
theorem reject_discards_shape_witness :
    ((2 : Int) < 5)
    ∧ displayedPoints (run_image_mode (baseCfg 5)
        (oneShotEnv 2 [((1 : Rat), (2 : Rat))]) "img.png" none).1 = [[]] :=
  ⟨by decide,
   (reject_discards_shape_and_resets_in_loop_modes 5
      (fun _ => (2, [((1 : Rat), (2 : Rat))])) ["a.png"] ["a.pts"] 1 2
      [((1 : Rat), (2 : Rat))] (by decide)).2.2.2⟩

/-- C3 counterexample: with an output destination present, an empty shape
and verbose set, list mode and video mode display the frame (as the
router table says) but image mode neither persists nor displays — the
three drivers do not share identical routing. -/
theorem image_mode_routing_differs :
    actionsOf (run_image_mode (verboseCfg 0 true) (oneShotEnv 0 [])
        "img.png" (some "out.pts")) = (false, false)
    ∧ actionsOf (run_lists_mode (verboseCfg 0 true) (oneShotEnv 0 [])
        "images.txt" (some "lms.txt")) = (false, true)
    ∧ actionsOf (run_video_mode (verboseCfg 0 true) (oneShotEnv 0 [])
        "video.avi" (some sampleTemplate)) = (false, true)
    ∧ specRouter true false true = (false, true) := by
  decide

/-- C3 (amended): the list-mode and video-mode drivers implement the
spec's router table identically; the image-mode driver implements it only
when no output destination is given — with a destination present it
persists exactly when the shape is non-empty and never displays, even
when verbose.  Observed on one-frame runs with threshold 0 and
confidence 0, so the resolved shape is exactly the tracker's `pts`. -/
theorem router_table_per_mode (pts : List Pt) (hasOut verbose : Bool) :
    actionsOf (run_lists_mode (verboseCfg 0 verbose) (oneShotEnv 0 pts)
        "images.txt" (if hasOut then some "lms.txt" else none))
      = specRouter hasOut (!pts.isEmpty) verbose
    ∧ actionsOf (run_video_mode (verboseCfg 0 verbose) (oneShotEnv 0 pts)
        "video.avi" (if hasOut then some sampleTemplate else none))
      = specRouter hasOut (!pts.isEmpty) verbose
    ∧ actionsOf (run_image_mode (verboseCfg 0 verbose) (oneShotEnv 0 pts)
        "img.png" (if hasOut then some "out.pts" else none))
      = imageRouter hasOut (!pts.isEmpty) verbose := by
  cases hasOut <;> cases verbose <;> cases pts <;>
    simp [run_lists_mode, runListsLoop, run_video_mode, runVideoLoop,
      run_image_mode, seqRun, display_image_and_points, actionsOf,
      specRouter, imageRouter, oneShotEnv, verboseCfg, baseCfg,
      initialParsedArgs, isSaveEvent, isDisplayEvent, grayFrame, colorFrame,
      grayOf, CV_8UC1, CV_8UC3, resolve_pathname]

/-- C4: in list mode, whenever the supplied output list's length differs
from the input list's, the run fails with a runtime error right after
reading the two lists — before any image is loaded or tracked — and
writes zero output files.  The whole resulting trace is spelled out, and
the no-load/no-track/no-save consequences are stated explicitly. -/
theorem lists_length_mismatch_fails_before_processing
    (cfg : Configuration) (env : Env) (iArg lArg : String)
    (h : (env.readList lArg).length ≠ (env.readList iArg).length) :
    run_lists_mode cfg env iArg (some lArg)
      = ([Event.loadTracker cfg.model_pathname cfg.params_pathname,
          Event.readList iArg, Event.readList lArg],
         some (RunErr.runtimeError
           ("Number of pathnames in list " ++ iArg ++
            " does not match the number in " ++ lArg)))
    ∧ savesOf (run_lists_mode cfg env iArg (some lArg)).1 = []
    ∧ (run_lists_mode cfg env iArg (some lArg)).1.countP
        (fun e => isLoadImageEvent e) = 0
    ∧ (run_lists_mode cfg env iArg (some lArg)).1.countP
        (fun e => isProcessEvent e) = 0 := by
  refine ⟨?_, ?_, ?_, ?_⟩ <;>
    simp [run_lists_mode, seqRun, savesOf, isLoadImageEvent, isProcessEvent, h]

/-- Witness: input list of two pathnames against an output list of one;
the mismatch hypothesis holds and zero files are saved. -/
theorem lists_length_mismatch_witness :
    ((listsEnv ["a.png", "b.png"] ["a.pts"] (fun _ => (7, []))).readList
        "lms.txt").length
      ≠ ((listsEnv ["a.png", "b.png"] ["a.pts"] (fun _ => (7, []))).readList
        "images.txt").length
    ∧ savesOf (run_lists_mode (baseCfg 5)
        (listsEnv ["a.png", "b.png"] ["a.pts"] (fun _ => (7, [])))
        "images.txt" (some "lms.txt")).1 = [] :=
  ⟨by decide,
   (lists_length_mismatch_fails_before_processing (baseCfg 5)
      (listsEnv ["a.png", "b.png"] ["a.pts"] (fun _ => (7, [])))
      "images.txt" "lms.txt" (by decide)).2.1⟩

/-- C5: process exit codes.  0 on `--help` and on normal completion; 1
when escape is pressed during display, with no further frames processed
afterwards (one image loaded and one frame displayed out of a
three-image list); 2 on an unprocessable extra argument, on the
conflicting `--lists --video` switches, on a list-length mismatch, on an
unreadable input image and on an unsupported video-frame format — each
code-2 failure carrying a message for the error stream, while escape
writes nothing to the error stream. -/
theorem process_exit_codes :
    mainRun (listsEnv ["a.png"] ["a.pts"] (fun _ => (7, [])))
        defaultTemplateParser ["--help"] = ([Event.printUsage], 0)
    ∧ (mainRun (oneShotEnv 7 [((1 : Rat), (2 : Rat))]) defaultTemplateParser
        ["img.png"]).2 = 0
    ∧ (mainRun (listsEnv ["a.png", "b.png", "c.png"]
        ["a.pts", "b.pts", "c.pts"] (fun _ => (7, []))) defaultTemplateParser
        ["--lists", "images.txt", "lms.txt"]).2 = 0
    ∧ (mainRun { listsEnv ["a.png", "b.png", "c.png"] [] (fun _ => (7, []))
          with keys := fun _ => 27 } defaultTemplateParser
        ["--lists", "images.txt"]).2 = 1
    ∧ (mainRun { listsEnv ["a.png", "b.png", "c.png"] [] (fun _ => (7, []))
          with keys := fun _ => 27 } defaultTemplateParser
        ["--lists", "images.txt"]).1.countP (fun e => isLoadImageEvent e) = 1
    ∧ (mainRun { listsEnv ["a.png", "b.png", "c.png"] [] (fun _ => (7, []))
          with keys := fun _ => 27 } defaultTemplateParser
        ["--lists", "images.txt"]).1.countP (fun e => isDisplayEvent e) = 1
    ∧ mainStderr (run_program { listsEnv ["a.png", "b.png", "c.png"] []
          (fun _ => (7, [])) with keys := fun _ => 27 } defaultTemplateParser
        ["--lists", "images.txt"]).2 = none
    ∧ (mainRun (oneShotEnv 7 []) defaultTemplateParser ["a", "b", "c"]).2 = 2
    ∧ (mainStderr (run_program (oneShotEnv 7 []) defaultTemplateParser
        ["a", "b", "c"]).2).isSome = true
    ∧ (mainRun (oneShotEnv 7 []) defaultTemplateParser
        ["--lists", "--video", "x"]).2 = 2
    ∧ (mainStderr (run_program (oneShotEnv 7 []) defaultTemplateParser
        ["--lists", "--video", "x"]).2).isSome = true
    ∧ (mainRun (listsEnv ["a.png", "b.png"] ["a.pts"] (fun _ => (7, [])))
        defaultTemplateParser ["--lists", "images.txt", "lms.txt"]).2 = 2
    ∧ (mainStderr (run_program (listsEnv ["a.png", "b.png"] ["a.pts"]
        (fun _ => (7, []))) defaultTemplateParser
        ["--lists", "images.txt", "lms.txt"]).2).isSome = true
    ∧ (mainRun { oneShotEnv 7 [] with loadImg := fun _ => none }
        defaultTemplateParser ["img.png"]).2 = 2
    ∧ (mainStderr (run_program { oneShotEnv 7 [] with loadImg := fun _ => none }
        defaultTemplateParser ["img.png"]).2).isSome = true
    ∧ (mainRun (videoEnv [{ rows := 4, cols := 4, imgType := 2 }]
        (fun _ => (7, []))) defaultTemplateParser ["--video", "v.avi"]).2 = 2
    ∧ (mainStderr (run_program (videoEnv [{ rows := 4, cols := 4, imgType := 2 }]
        (fun _ => (7, []))) defaultTemplateParser
        ["--video", "v.avi"]).2).isSome = true := by
  decide

/-- Digits produced by `digitsLoop` are decimal digits. -/
lemma digitsLoop_lt_ten : ∀ (fuel n d : Nat), d ∈ digitsLoop fuel n → d < 10 := by
  intro fuel
  induction fuel with
  | zero => intro n d hd; simp [digitsLoop] at hd
  | succ f ih =>
    intro n d hd
    by_cases h0 : n = 0
    · simp [digitsLoop, h0] at hd
    · simp [digitsLoop, h0] at hd
      rcases hd with hd | hd
      · omega
      · exact ih _ _ hd

/-- Reading back the digits of `n` recovers `n` when the fuel suffices. -/
lemma ofDigits_digitsLoop : ∀ (fuel n : Nat), n ≤ fuel →
    Nat.ofDigits 10 (digitsLoop fuel n) = n := by
  intro fuel
  induction fuel with
  | zero => intro n hn; interval_cases n; simp [digitsLoop, Nat.ofDigits]
  | succ f ih =>
    intro n hn
    by_cases h0 : n = 0
    · simp [digitsLoop, h0, Nat.ofDigits]
    · have hdiv : n / 10 ≤ f := by
        have := Nat.div_lt_self (Nat.pos_of_ne_zero h0) (by norm_num : 1 < 10)
        omega
      simp [digitsLoop, h0, Nat.ofDigits_cons, ih _ hdiv]
      omega

/-- Digits of the little-endian rendering are decimal digits. -/
lemma decimalDigitsLE_lt_ten {n d : Nat} (hd : d ∈ decimalDigitsLE n) :
    d < 10 := by
  by_cases h0 : n = 0
  · simp [decimalDigitsLE, h0] at hd; omega
  · exact digitsLoop_lt_ten n n d (by simpa [decimalDigitsLE, h0] using hd)

/-- Reading back the little-endian rendering recovers the number. -/
lemma ofDigits_decimalDigitsLE (n : Nat) :
    Nat.ofDigits 10 (decimalDigitsLE n) = n := by
  by_cases h0 : n = 0
  · simp [decimalDigitsLE, h0, Nat.ofDigits]
  · simpa [decimalDigitsLE, h0] using ofDigits_digitsLoop n n le_rfl

/-- A run of zero digits contributes nothing. -/
lemma ofDigits_replicate_zero (k : Nat) :
    Nat.ofDigits 10 (List.replicate k 0) = 0 := by
  induction k with
  | zero => simp [Nat.ofDigits]
  | succ m ih => simp [List.replicate_succ, Nat.ofDigits_cons, ih]

/-- Unreading a zero-padded rendering recovers the rendered number: the
pad width cannot blur which number a pathname came from. -/
lemma unpad_padNum (w n : Nat) : unpad (padNum w n) = n := by
  have hmem : ∀ d ∈ decimalDigitsLE n, charDigit (digitChar d) = d := by
    intro d hd
    have h10 := decimalDigitsLE_lt_ten hd
    interval_cases d <;> decide
  have hmap : (decimalDigitsLE n).map (charDigit ∘ digitChar)
      = decimalDigitsLE n := by
    calc (decimalDigitsLE n).map (charDigit ∘ digitChar)
        = (decimalDigitsLE n).map id := List.map_congr_left hmem
      _ = decimalDigitsLE n := List.map_id _
  have hzero : charDigit '0' = 0 := by decide
  calc unpad (padNum w n)
      = Nat.ofDigits 10 (decimalDigitsLE n ++
          List.replicate (w - (decimalDigits n).length) 0) := by
        simp [unpad, padNum, decimalDigits, List.reverse_append,
          List.reverse_replicate, List.map_replicate, List.map_map,
          hzero, ← List.map_reverse, List.reverse_reverse]
        rw [hmap]
    _ = n := by
        rw [Nat.ofDigits_append, ofDigits_replicate_zero,
          ofDigits_decimalDigitsLE]
        ring

/-- Zero-padded decimal rendering is injective at a fixed width. -/
lemma padNum_injective (w m n : Nat) (h : padNum w m = padNum w n) :
    m = n := by
  rw [← unpad_padNum w m, h, unpad_padNum]

/-- Untruncated formatted pathnames determine the frame number. -/
lemma sprintfFrame_injective (t : FormatTemplate) (m n : Nat)
    (h : sprintfFrame t m = sprintfFrame t n) : m = n := by
  unfold sprintfFrame at h
  exact padNum_injective t.padWidth m n
    (List.append_cancel_left (List.append_cancel_right h))

/-- Save-path pattern of the video-mode loop with an output template over
`n` accepted frames: one save per frame, at the pathname resolved from
the template with the running 1-based frame counter. -/
lemma savePaths_runVideoLoop (tpl : FormatTemplate) (s : List Pt)
    (hs : s ≠ []) (f0 : List Image) :
    ∀ (n fn si ki : Nat),
      savePathsOf (runVideoLoop (baseCfg 0) (videoEnv f0 (fun _ => (7, s)))
          (some tpl) (List.replicate n colorFrame) fn si ki).1
        = (List.range' fn n).map (resolve_pathname tpl) := by
  have hlen : 0 < s.length := List.length_pos.mpr hs
  intro n
  induction n with
  | zero => intro fn si ki; simp [runVideoLoop, savePathsOf]
  | succ m ih =>
    intro fn si ki
    simp only [List.replicate_succ, List.range'_succ]
    simp [runVideoLoop, videoEnv, seqRun, savePathsOf, baseCfg,
      initialParsedArgs, colorFrame, grayOf, CV_8UC1, CV_8UC3, hlen,
      display_image_and_points]
    exact ih _ _ _

/-- C6 (amended): in video mode with an output template, the destination
pathname of each frame is resolved by substituting the 1-based frame
counter, and the resolved pathnames for frames `1..N` are pairwise
distinct provided each resolved pathname fits untruncated in the
snprintf buffer (at most 999 characters); the fixed 1000-byte buffer
truncates longer pathnames, which can collide. -/
theorem video_pathnames_distinct_without_truncation
    (tpl : FormatTemplate) (s : List Pt) (N : Nat) (hs : s ≠ [])
    (h : ∀ i ∈ List.range' 1 N,
      (sprintfFrame tpl i).length ≤ pathname_buffer_size - 1) :
    savePathsOf (run_video_mode (baseCfg 0)
        (videoEnv (List.replicate N colorFrame) (fun _ => (7, s)))
        "video.avi" (some tpl)).1
      = (List.range' 1 N).map (resolve_pathname tpl)
    ∧ ((List.range' 1 N).map (resolve_pathname tpl)).Nodup := by
  constructor
  · have hp := savePaths_runVideoLoop tpl s hs (List.replicate N colorFrame)
      N 1 0 0
    simpa [run_video_mode, videoEnv, seqRun, savePathsOf] using hp
  · refine List.Nodup.map_on ?_ (List.nodup_range' 1 N)
    intro m hm n hn hres
    have em : resolve_pathname tpl m = String.mk (sprintfFrame tpl m) := by
      unfold resolve_pathname
      rw [List.take_of_length_le (h m hm)]
    have en : resolve_pathname tpl n = String.mk (sprintfFrame tpl n) := by
      unfold resolve_pathname
      rw [List.take_of_length_le (h n hn)]
    rw [em, en] at hres
    injection hres with hdata
    exact sprintfFrame_injective tpl m n hdata

/-- Witness: with the template `frame_%04u.pts` and three frames, every
resolved pathname fits the buffer and the three pathnames are pairwise
distinct. -/
theorem video_pathnames_distinct_witness :
    ([((1 : Rat), (2 : Rat))] ≠ ([] : List Pt))
    ∧ (∀ i ∈ List.range' 1 3,
        (sprintfFrame sampleTemplate i).length ≤ pathname_buffer_size - 1)
    ∧ ((List.range' 1 3).map (resolve_pathname sampleTemplate)).Nodup :=
  ⟨by decide, by decide,
   (video_pathnames_distinct_without_truncation sampleTemplate
      [((1 : Rat), (2 : Rat))] 3 (by decide) (by decide)).2⟩

set_option maxRecDepth 4096 in
/-- C6 counterexample: under a template whose text before the slot already
fills the 999-character buffer capacity, every frame resolves to the
same truncated pathname — a two-frame video run saves both frames to one
pathname — so the resolved pathnames for frames `1..N` are not pairwise
distinct even though the template has a substitution slot. -/
theorem video_pathname_truncation_collision :
    resolve_pathname longTemplate 1 = resolve_pathname longTemplate 2
    ∧ savePathsOf (run_video_mode (baseCfg 0)
        (videoEnv (List.replicate 2 colorFrame)
          (fun _ => (7, [((1 : Rat), (2 : Rat))])))
        "video.avi" (some longTemplate)).1
      = [resolve_pathname longTemplate 1, resolve_pathname longTemplate 2]
    ∧ ¬ ((List.range' 1 2).map (resolve_pathname longTemplate)).Nodup := by
  have key : ∀ m : Nat, resolve_pathname longTemplate m
      = String.mk (List.replicate 999 'a') := by
    intro m
    have h1 : sprintfFrame longTemplate m
        = List.replicate 999 'a' ++ padNum 0 m ++ ([] : List Char) := rfl
    have h2 : (List.replicate 999 'a' ++ padNum 0 m
        ++ ([] : List Char)).take (pathname_buffer_size - 1)
        = List.replicate 999 'a' := by
      rw [List.append_nil]
      exact List.take_left' (by simp [pathname_buffer_size])
    unfold resolve_pathname
    rw [h1, h2]
  refine ⟨by rw [key 1, key 2], ?_, ?_⟩
  · have hp := savePaths_runVideoLoop longTemplate [((1 : Rat), (2 : Rat))]
      (by decide) (List.replicate 2 colorFrame) 2 1 0 0
    have h2 : (List.range' 1 2).map (resolve_pathname longTemplate)
        = [resolve_pathname longTemplate 1, resolve_pathname longTemplate 2] := by
      simp [List.range']
    simpa [run_video_mode, videoEnv, seqRun, savePathsOf, h2] using hp
  · simp [List.range', key 1, key 2]

/-- Hitting a zero-size frame behaves exactly as if the stream ended
there: whatever follows it is never pulled. -/
lemma runVideoLoop_stops_at_empty_frame (cfg : Configuration) (env : Env)
    (lm : Option FormatTemplate) (f : Image)
    (hf : f.rows = 0 ∨ f.cols = 0) :
    ∀ (pre post : List Image) (fn si ki : Nat),
      runVideoLoop cfg env lm (pre ++ f :: post) fn si ki
        = runVideoLoop cfg env lm pre fn si ki := by
  intro pre
  induction pre with
  | nil =>
    intro post fn si ki
    rcases hf with hf | hf <;> simp [runVideoLoop, hf]
  | cons g rest ih =>
    intro post fn si ki
    simp only [List.cons_append, runVideoLoop]
    simp [ih]

/-- C7: video mode pulls frames sequentially and a zero-size frame ends
the loop normally — everything after it is never pulled, and a stream of
well-formed frames followed by the end marker completes without error;
a pulled frame whose layout is neither single-channel nor 3-channel
raises the fatal conversion error; a 3-channel frame is converted to
single-channel for the `Track` call while the displayed frame is the
original, and a single-channel frame is tracked as-is. -/
theorem video_stream_semantics
    (cfg : Configuration) (env : Env) (lm : Option FormatTemplate)
    (post : List Image) (f : Image) (hf : f.rows = 0 ∨ f.cols = 0)
    (img : Image) (rest : List Image)
    (hpos : 0 < img.rows ∧ 0 < img.cols)
    (hfmt : img.imgType ≠ CV_8UC1 ∧ img.imgType ≠ CV_8UC3)
    (c3 g1 : Image) (h3 : c3.imgType = CV_8UC3)
    (hp3 : 0 < c3.rows ∧ 0 < c3.cols) (h1 : g1.imgType = CV_8UC1)
    (hp1 : 0 < g1.rows ∧ 0 < g1.cols)
    (s : List Pt) (pre : List Image) (n fn si ki : Nat) :
    (runVideoLoop cfg env lm (pre ++ f :: post) fn si ki
       = runVideoLoop cfg env lm pre fn si ki)
    ∧ (runVideoLoop cfg env lm (img :: rest) fn si ki
       = ([], some (RunErr.runtimeError
           "Do not know how to convert video frame to a grayscale image.")))
    ∧ (runVideoLoop (baseCfg 0) (videoEnv [] (fun _ => (7, s))) none
         [c3] fn si ki
       = ([Event.track (grayOf c3), Event.display c3 s], none))
    ∧ (runVideoLoop (baseCfg 0) (videoEnv [] (fun _ => (7, s))) none
         [g1] fn si ki
       = ([Event.track g1, Event.display g1 s], none))
    ∧ (run_video_mode (baseCfg 0)
         (videoEnv (List.replicate n colorFrame ++ f :: post)
           (fun _ => (7, s))) "video.avi" none).2 = none := by
  refine ⟨runVideoLoop_stops_at_empty_frame cfg env lm f hf pre post fn si ki,
    ?_, ?_, ?_, ?_⟩
  · simp [runVideoLoop, hpos.1, hpos.2, hfmt.1, hfmt.2]
  · have hgray : grayOf c3 = { c3 with imgType := CV_8UC1 } := rfl
    simp [runVideoLoop, videoEnv, seqRun, display_image_and_points,
      baseCfg, initialParsedArgs, h3, hp3.1, hp3.2, hgray]
  · simp [runVideoLoop, videoEnv, seqRun, display_image_and_points,
      baseCfg, initialParsedArgs, h1, hp1.1, hp1.2, CV_8UC1, CV_8UC3]
  · have hstop := runVideoLoop_stops_at_empty_frame (baseCfg 0)
      (videoEnv (List.replicate n colorFrame ++ f :: post) (fun _ => (7, s)))
      none f hf (List.replicate n colorFrame) post 1 0 0
    have hdone := (trackerOps_runVideoLoop 0 (fun _ => (7, s))
      (List.replicate n colorFrame ++ f :: post) n 1 0 0).2
    rw [← hstop] at hdone
    simpa [run_video_mode, videoEnv, seqRun] using hdone

/-- Witness: the C7 hypotheses hold for the zero-size frame, the 16-bit
frame and the standard 3-channel/1-channel frames, and a two-frame
stream closed by the end marker completes with no error. -/
theorem video_stream_semantics_witness :
    (emptyFrame.rows = 0 ∨ emptyFrame.cols = 0)
    ∧ (0 < badFrame.rows ∧ 0 < badFrame.cols)
    ∧ (badFrame.imgType ≠ CV_8UC1 ∧ badFrame.imgType ≠ CV_8UC3)
    ∧ colorFrame.imgType = CV_8UC3
    ∧ (0 < colorFrame.rows ∧ 0 < colorFrame.cols)
    ∧ grayFrame.imgType = CV_8UC1
    ∧ (0 < grayFrame.rows ∧ 0 < grayFrame.cols)
    ∧ (run_video_mode (baseCfg 0)
         (videoEnv (List.replicate 2 colorFrame ++ emptyFrame :: [])
           (fun _ => (7, [((1 : Rat), (2 : Rat))]))) "video.avi" none).2
      = none :=
  ⟨by decide, by decide, by decide, by decide, by decide, by decide,
   by decide,
   (video_stream_semantics (baseCfg 0)
      (videoEnv [] (fun _ => (7, [((1 : Rat), (2 : Rat))]))) none
      [] emptyFrame (by decide) badFrame [] (by decide) (by decide)
      colorFrame grayFrame (by decide) (by decide) (by decide) (by decide)
      [((1 : Rat), (2 : Rat))] [] 2 1 0 0).2.2.2.2⟩

/-- Overwriting the landmark cursor: looking one position further into the
output list is looking at the head of its tail. -/
lemma getD_succ_tail (lms : List String) (j : Nat) :
    lms.getD (j + 1) "" = lms.tail.getD j "" := by
  cases lms <;> simp [List.getD]

/-- The landmark cursor starts at the head of the output list. -/
lemma getD_zero_headD (lms : List String) : lms.getD 0 "" = lms.headD "" := by
  cases lms <;> simp [List.getD]

/-- Save pattern of the list-mode loop with an output list present. -/
lemma savesOf_runListsLoop (t : Int) (vb : Bool)
    (script : Nat → Int × List Pt) (imgs0 lms0 : List String)
    (imgs : List String) :
    ∀ (lms : List String) (si ki : Nat),
      savesOf (runListsLoop (verboseCfg t vb) (listsEnv imgs0 lms0 script)
          true imgs lms si ki).1
        = expectedSaves t script imgs.length lms si := by
  induction imgs with
  | nil => intro lms si ki; simp [runListsLoop, savesOf, expectedSaves]
  | cons p rest ih =>
    intro lms si ki
    cases vb <;> by_cases h : (script si).1 ≥ t <;>
      by_cases h2 : 0 < (script si).2.length <;>
        (simp [runListsLoop, listsEnv, seqRun, display_image_and_points,
          savesOf, expectedSaves, verboseCfg, baseCfg, initialParsedArgs,
          h, h2]; exact ih _ _ _)

/-- The recursive save pattern, re-read positionally: the save produced by
the `j`-th input image (0-based), if any, goes to the `j`-th entry of the
output list. -/
lemma expectedSaves_eq_idx (t : Int) (script : Nat → Int × List Pt) :
    ∀ (n : Nat) (lms : List String) (si : Nat),
      expectedSaves t script n lms si
        = (List.range n).filterMap (fun j =>
            let r := script (si + j)
            let shape : List Pt := if r.1 ≥ t then r.2 else []
            if shape.length > 0 then some (lms.getD j "", shape) else none) := by
  intro n
  induction n with
  | zero => intro lms si; simp [expectedSaves]
  | succ m ih =>
    intro lms si
    rw [List.range_succ_eq_map, List.filterMap_cons, List.filterMap_map]
    have hcongr : (List.range m).filterMap ((fun j =>
          let r := script (si + j)
          let shape : List Pt := if r.1 ≥ t then r.2 else []
          if shape.length > 0 then some (lms.getD j "", shape) else none)
            ∘ Nat.succ)
        = (List.range m).filterMap (fun j =>
            let r := script (si + 1 + j)
            let shape : List Pt := if r.1 ≥ t then r.2 else []
            if shape.length > 0 then some (lms.tail.getD j "", shape)
            else none) := by
      congr 1
      funext j
      have harith : si + (j + 1) = si + 1 + j := by omega
      simp [Function.comp, Nat.succ_eq_add_one, harith, getD_succ_tail]
    rw [hcongr, ← ih]
    by_cases h : (script si).1 ≥ t <;>
      by_cases h2 : 0 < (script si).2.length <;>
        simp [expectedSaves, getD_zero_headD, h, h2] <;>
          (cases lms <;> simp [List.getD])

/-- C8: in list mode with an output list, the destination cursor advances
by exactly one per processed input image, in input order, regardless of
whether that image's shape was empty: the saves of the run are exactly
the accepted non-empty frames, each paired with the output-list entry of
its own (0-based) input position — a skipped image's target is never
reused by a later image. -/
theorem lists_destination_lockstep (t : Int) (vb : Bool)
    (script : Nat → Int × List Pt) (imgs lms : List String)
    (h : lms.length = imgs.length) :
    savesOf (run_lists_mode (verboseCfg t vb) (listsEnv imgs lms script)
        "images.txt" (some "lms.txt")).1
      = (List.range imgs.length).filterMap (fun j =>
          let r := script j
          let shape : List Pt := if r.1 ≥ t then r.2 else []
          if shape.length > 0 then some (lms.getD j "", shape) else none) := by
  have hloop := savesOf_runListsLoop t vb script imgs lms imgs lms 0 0
  have hidx := expectedSaves_eq_idx t script imgs.length lms 0
  simp only [Nat.zero_add] at hidx
  rw [← hidx]
  simpa [run_lists_mode, listsEnv, seqRun, savesOf, h] using hloop

/-- Witness: three input images against three output pathnames, the middle
frame rejected: the first and third outputs receive their own images'
shapes and the middle target is skipped, not reused. -/
theorem lists_destination_lockstep_witness :
    (["a.pts", "b.pts", "c.pts"] : List String).length
        = (["a.png", "b.png", "c.png"] : List String).length
    ∧ savesOf (run_lists_mode (verboseCfg 5 false)
        (listsEnv ["a.png", "b.png", "c.png"] ["a.pts", "b.pts", "c.pts"]
          (fun n => (if n = 1 then 3 else 7, [((1 : Rat), (2 : Rat))])))
        "images.txt" (some "lms.txt")).1
      = [("a.pts", [((1 : Rat), (2 : Rat))]), ("c.pts", [((1 : Rat), (2 : Rat))])] := by
  refine ⟨by decide, ?_⟩
  rw [lists_destination_lockstep 5 false
    (fun n => (if n = 1 then 3 else 7, [((1 : Rat), (2 : Rat))]))
    ["a.png", "b.png", "c.png"] ["a.pts", "b.pts", "c.pts"] (by decide)]
  decide

/-- C9: when the argument loop completes without a positional input
argument, the program prints the usage text and exits with code 0 — like
`--help`, not as an error — and the trace holds nothing but the usage
print: no tracker, image, list or video resource is ever touched. -/
theorem no_positional_argument_prints_usage
    (env : Env) (tp : TemplateParser) (args : List String) (st : ParsedArgs)
    (h1 : parseArgs args initialParsedArgs = ParseStep.done st)
    (h2 : st.imageArg = none) :
    run_program env tp args = ([Event.printUsage], none)
    ∧ mainRun env tp args = ([Event.printUsage], 0)
    ∧ ∀ e ∈ (run_program env tp args).1, e = Event.printUsage := by
  have hr : run_program env tp args = ([Event.printUsage], none) := by
    unfold run_program
    rw [h1]
    simp [h2]
  refine ⟨hr, ?_, ?_⟩
  · simp [mainRun, hr, exitCode]
  · intro e he
    rw [hr] at he
    simpa using he

/-- Witness: `--verbose` alone sets no positional argument; the run prints
usage and exits 0. -/
theorem no_positional_argument_witness :
    parseArgs ["--verbose"] initialParsedArgs
      = ParseStep.done { initialParsedArgs with
          cfg := { initialParsedArgs.cfg with verbose := true } }
    ∧ ({ initialParsedArgs with
          cfg := { initialParsedArgs.cfg with verbose := true }
        } : ParsedArgs).imageArg = none
    ∧ mainRun (oneShotEnv 7 []) defaultTemplateParser ["--verbose"]
      = ([Event.printUsage], 0) :=
  ⟨by decide, by decide,
   (no_positional_argument_prints_usage (oneShotEnv 7 [])
      defaultTemplateParser ["--verbose"]
      { initialParsedArgs with
        cfg := { initialParsedArgs.cfg with verbose := true } }
      (by decide) (by decide)).2.1⟩

/-- C10: the `--threshold` value is never range-checked: any integer token
(negative or above 10 included) parses successfully and lands verbatim in
the configuration; the run then completes without error and the
acceptance comparison uses that value directly, accepting exactly when
the confidence reaches it. -/
theorem threshold_unchecked_and_used_verbatim
    (v : String) (t : Int) (h : parseIntToken v = some t)
    (c : Int) (pts : List Pt) :
    parseArgs ["--threshold", v, "img.png"] initialParsedArgs
      = ParseStep.done { initialParsedArgs with
          cfg := { initialParsedArgs.cfg with tracking_threshold := t },
          imageArg := some "img.png" }
    ∧ (run_program (oneShotEnv c pts) defaultTemplateParser
        ["--threshold", v, "img.png"]).2 = none
    ∧ displayedPoints (run_program (oneShotEnv c pts) defaultTemplateParser
        ["--threshold", v, "img.png"]).1 = [if c ≥ t then pts else []] := by
  have hp : parseArgs ["--threshold", v, "img.png"] initialParsedArgs
      = ParseStep.done { initialParsedArgs with
          cfg := { initialParsedArgs.cfg with tracking_threshold := t },
          imageArg := some "img.png" } := by
    simp [parseArgs, h, initialParsedArgs]
  refine ⟨hp, ?_, ?_⟩ <;>
    (unfold run_program
     rw [hp]
     by_cases hc : c ≥ t <;>
       simp [run_image_mode, oneShotEnv, seqRun, display_image_and_points,
         displayedPoints, initialParsedArgs, hc])

/-- Witness: threshold -5 (below the documented 0-10 range) parses, is
used verbatim, and a confidence of -3 ≥ -5 is an accept. -/
theorem threshold_unchecked_witness :
    parseIntToken "-5" = some (-5)
    ∧ displayedPoints (run_program (oneShotEnv (-3) [((1 : Rat), (2 : Rat))])
        defaultTemplateParser ["--threshold", "-5", "img.png"]).1
      = [if (-3 : Int) ≥ -5 then [((1 : Rat), (2 : Rat))] else []] :=
  ⟨by decide,
   (threshold_unchecked_and_used_verbatim "-5" (-5) (by decide) (-3)
      [((1 : Rat), (2 : Rat))]).2.2⟩

end FaceFit
